import Mathlib

/-!
Verification development for the ATI force/torque sensor TCP driver
(`ati_ft_sensor_tcp.py`). The driver is embedded shallowly: socket I/O is
abstracted into an explicit receive outcome (`RecvResult`) and an I/O trace,
Python integers become `ℤ`/`ℕ`, Python float results of true division are
modelled as exact rationals `ℚ`, and Python runtime exceptions become an
explicit error type carried by `Except`.
-/

deriving instance DecidableEq for Except

namespace AtiFt

abbrev Byte := Fin 256

def MESSAGE_LENGTH : ℕ := 20

def HEADER_LENGTH : ℕ := 2

/-- Big-endian unsigned value of a byte string, as `int.from_bytes` computes it
before sign adjustment; the empty string yields `0`. -/
def bytesToNat : List Byte → ℕ
  | [] => 0
  | b :: rest => b.val * 256 ^ rest.length + bytesToNat rest

/-- Python `int.from_bytes(bs, signed=True)` with the default big-endian byte
order: the unsigned big-endian value, two's-complement adjusted when the top
bit of the first byte is set. -/
def int_from_bytes_signed (bs : List Byte) : ℤ :=
  let u := bytesToNat bs
  if 256 ^ bs.length ≤ 2 * u then (u : ℤ) - 256 ^ bs.length else (u : ℤ)

/-- Python slice `data[a:b]` for `a ≤ b`: the elements at indices
`a, a+1, …, b-1` that actually exist (silently shorter when the list ends). -/
def pySlice (data : List Byte) (a b : ℕ) : List Byte :=
  (data.drop a).take (b - a)

/-- `_construct_command`: the opcode bytes followed by zero padding up to
`MESSAGE_LENGTH` bytes. -/
def construct_command (code : List Byte) : List Byte :=
  code ++ List.replicate (MESSAGE_LENGTH - code.length) (0 : Byte)

/-- Python runtime exceptions and the driver's own raised exceptions.
`invalidCalibration` and `notConnected` are error kinds named by the
specification only; no code path of the source produces them. -/
inductive PyErr
  | zeroDivisionError
  | typeError
  | indexError
  | attributeError
  | calibNotConnected
  | calibTimeout
  | invalidCalibration
  | notConnected
  deriving DecidableEq, Repr

/-- Transport events produced by one driver operation. -/
inductive IOEvent
  | send (msg : List Byte)
  | recv
  deriving DecidableEq, Repr

/-- Outcome of the single blocking `sock.recv(BUFFER_SIZE)` call of an
operation: either the timeout expired or some bytes arrived. -/
inductive RecvResult
  | timeout
  | data (bs : List Byte)
  deriving DecidableEq, Repr

/-- The mutable instance state of `ATIForceTorqueSensor`. The fields that the
constructor initialises to `None` are `Option`-typed; the bias vectors start
as `[0, 0, 0]` and the scaling factor lists as `[]`. -/
structure ATIForceTorqueSensor where
  connected : Bool
  F_bias : List ℚ
  T_bias : List ℚ
  scaling_factors_F : List ℤ
  scaling_factors_T : List ℤ
  force_units : Option ℕ
  torque_units : Option ℕ
  counts_per_force : Option ℤ
  counts_per_torque : Option ℤ
  deriving DecidableEq, Repr

/-- The tuple returned by `get_calibration_info`, with one field per tuple
component in order. -/
structure CalibrationTuple where
  force_units : ℕ
  torque_units : ℕ
  counts_per_force : ℤ
  counts_per_torque : ℤ
  scaling_factors_F : List ℤ
  scaling_factors_T : List ℤ
  deriving DecidableEq, Repr

/-- Result of `get_calibration_info`: the returned tuple or the raised
exception, the transport events performed, and whether the socket was closed. -/
structure CalibResult where
  val : Except PyErr CalibrationTuple
  trace : List IOEvent
  closed : Bool
  deriving DecidableEq, Repr

/-- `get_calibration_info`: raises when not connected (closing the socket),
sends the 0x01 command, receives once; on timeout closes the socket and
raises; otherwise decodes unit codes by direct byte indexing (IndexError when
the frame is shorter than 4 bytes) and the counts and scaling factors by
slicing (silently truncated when short). -/
def get_calibration_info (s : ATIForceTorqueSensor) (net : RecvResult) : CalibResult :=
  if s.connected = false then
    { val := .error .calibNotConnected, trace := [], closed := true }
  else
    let message := construct_command [(1 : Byte)]
    match net with
    | .timeout =>
        { val := .error .calibTimeout, trace := [.send message, .recv], closed := true }
    | .data response_data =>
        match response_data[HEADER_LENGTH]? with
        | none => { val := .error .indexError, trace := [.send message, .recv], closed := false }
        | some force_units =>
          match response_data[HEADER_LENGTH + 1]? with
          | none => { val := .error .indexError, trace := [.send message, .recv], closed := false }
          | some torque_units =>
            let counts_per_force :=
              int_from_bytes_signed (pySlice response_data (HEADER_LENGTH + 2) (HEADER_LENGTH + 2 + 4))
            let counts_per_torque :=
              int_from_bytes_signed (pySlice response_data (HEADER_LENGTH + 2 + 4) (HEADER_LENGTH + 2 + 4 + 4))
            let scaling_factors := (List.range 6).map fun i =>
              int_from_bytes_signed (pySlice response_data (12 + i * 2) (12 + i * 2 + 2))
            { val := .ok ⟨force_units.val, torque_units.val, counts_per_force, counts_per_torque,
                scaling_factors.take 3, (scaling_factors.drop 3).take 3⟩,
              trace := [.send message, .recv], closed := false }

/-- Result of `get_data`: the returned pair (`none` models Python
`(None, None)`) or a raised runtime exception, the transport events, and the
instance state afterwards. -/
structure GetDataResult where
  val : Except PyErr (Option (List ℚ × List ℚ))
  trace : List IOEvent
  state : ATIForceTorqueSensor
  deriving DecidableEq, Repr

/-- One axis of the decode loop body:
`raw_value = int.from_bytes(data[off+i*2 : off+i*2+2], signed=True)` followed by
`raw_value * scaling_factors[i] / counts`, with the Python runtime failures in
evaluation order: IndexError when `scaling_factors[i]` is missing, TypeError
when `counts` is `None`, ZeroDivisionError when `counts` is zero. -/
def convertAxis (data : List Byte) (off i : ℕ) (factors : List ℤ) (counts : Option ℤ) :
    Except PyErr ℚ :=
  let raw_value := int_from_bytes_signed (pySlice data (off + i * 2) (off + i * 2 + 2))
  match factors[i]? with
  | none => .error .indexError
  | some sf =>
    match counts with
    | none => .error .typeError
    | some c =>
      if c = 0 then .error .zeroDivisionError
      else .ok (((raw_value * sf : ℤ) : ℚ) / (c : ℚ))

/-- The `if not raw: F[i] -= bias[i]` step applied after conversion. -/
def biasCorrect (v : ℚ) (bias : List ℚ) (i : ℕ) (raw : Bool) : Except PyErr ℚ :=
  if raw then .ok v
  else
    match bias[i]? with
    | none => .error .indexError
    | some b => .ok (v - b)

/-- One iteration of the decode loop: conversion then optional bias
subtraction, stopping at the first raised exception. -/
def axisStep (data : List Byte) (off i : ℕ) (factors : List ℤ) (counts : Option ℤ)
    (bias : List ℚ) (raw : Bool) : Except PyErr ℚ :=
  match convertAxis data off i factors counts with
  | .error e => .error e
  | .ok v => biasCorrect v bias i raw

/-- The `for i in range(3)` decode loop of `get_data` for one vector, unrolled
over its three fixed iterations; an exception raised in one iteration aborts
the loop. -/
def computeAxes (data : List Byte) (off : ℕ) (factors : List ℤ) (counts : Option ℤ)
    (bias : List ℚ) (raw : Bool) : Except PyErr (List ℚ) :=
  match axisStep data off 0 factors counts bias raw with
  | .error e => .error e
  | .ok a0 =>
    match axisStep data off 1 factors counts bias raw with
    | .error e => .error e
    | .ok a1 =>
      match axisStep data off 2 factors counts bias raw with
      | .error e => .error e
      | .ok a2 => .ok [a0, a1, a2]

/-- `get_data`: returns `(None, None)` without any transport I/O when not
connected; otherwise sends the 0x00 command and receives once; timeout yields
`(None, None)`; received bytes are decoded with force offset 4 and torque
offset 10. No instance field is assigned. -/
def get_data (s : ATIForceTorqueSensor) (raw : Bool) (net : RecvResult) : GetDataResult :=
  if s.connected = false then
    { val := .ok none, trace := [], state := s }
  else
    let message := construct_command [(0 : Byte)]
    match net with
    | .timeout => { val := .ok none, trace := [.send message, .recv], state := s }
    | .data d =>
      match computeAxes d 4 s.scaling_factors_F s.counts_per_force s.F_bias raw with
      | .error e => { val := .error e, trace := [.send message, .recv], state := s }
      | .ok F =>
        match computeAxes d 10 s.scaling_factors_T s.counts_per_torque s.T_bias raw with
        | .error e => { val := .error e, trace := [.send message, .recv], state := s }
        | .ok T => { val := .ok (some (F, T)), trace := [.send message, .recv], state := s }

/-- Result of `zero_sensor`. -/
structure ZeroResult where
  val : Except PyErr Unit
  trace : List IOEvent
  state : ATIForceTorqueSensor
  deriving DecidableEq, Repr

/-- `zero_sensor`: `F, T = get_data(raw=True)` then `F_bias = F.copy()` and
`T_bias = T.copy()`. When `get_data` returned `(None, None)`, `F.copy()`
raises AttributeError before any bias field is assigned. -/
def zero_sensor (s : ATIForceTorqueSensor) (net : RecvResult) : ZeroResult :=
  let g := get_data s true net
  match g.val with
  | .error e => { val := .error e, trace := g.trace, state := g.state }
  | .ok none => { val := .error .attributeError, trace := g.trace, state := g.state }
  | .ok (some (F, T)) =>
      { val := .ok (), trace := g.trace,
        state := { g.state with F_bias := F, T_bias := T } }

/-- Spec-level decoder of a signed 16-bit big-endian integer from two bytes. -/
def int16BE (hi lo : Byte) : ℤ :=
  let u := hi.val * 256 + lo.val
  if 32768 ≤ u then (u : ℤ) - 65536 else (u : ℤ)

/-- Spec-level decoder of a signed 32-bit big-endian integer from four bytes. -/
def int32BE (b0 b1 b2 b3 : Byte) : ℤ :=
  let u := b0.val * 16777216 + b1.val * 65536 + b2.val * 256 + b3.val
  if 2147483648 ≤ u then (u : ℤ) - 4294967296 else (u : ℤ)

/-- A concrete post-calibration state, matching the spec's calibration
scenario (counts 1000/1000, force scaling 10, torque scaling 5). -/
def calibState : ATIForceTorqueSensor :=
  { connected := true
    F_bias := [0, 0, 0]
    T_bias := [0, 0, 0]
    scaling_factors_F := [10, 10, 10]
    scaling_factors_T := [5, 5, 5]
    force_units := some 1
    torque_units := some 2
    counts_per_force := some 1000
    counts_per_torque := some 1000 }

/-- The spec's sample scenario frame: force raw bytes 00 64 ×3 at offset 4,
torque raw bytes 00 32 ×3 at offset 10. -/
def sampleFrame : List Byte :=
  [0, 0, 0, 0, 0, 100, 0, 100, 0, 100, 0, 50, 0, 50, 0, 50]

/-- The spec's calibration scenario frame (24 bytes). -/
def calibFrame : List Byte :=
  [0, 0, 1, 2, 0, 0, 3, 232, 0, 0, 3, 232, 0, 10, 0, 10, 0, 10, 0, 5, 0, 5, 0, 5]

/-- The specification's per-axis conversion formula: the signed 16-bit
big-endian raw value at byte offset `off + i*2`, times the per-axis scaling
factor, divided by the counts-per-unit divisor; when `raw` is false the bias
component is subtracted after the conversion, when `raw` is true the converted
value is returned unchanged. -/
def specAxis (d : List Byte) (off : ℕ) (factors : List ℤ) (c : ℤ) (bias : List ℚ)
    (raw : Bool) (i : ℕ) : ℚ :=
  let conv := ((int16BE (d.getD (off + i * 2) 0) (d.getD (off + i * 2 + 1) 0)
      * factors.getD i 0 : ℤ) : ℚ) / (c : ℚ)
  if raw then conv else conv - bias.getD i 0

/-- The instance state as the constructor leaves it before any connection:
not connected, zero biases, empty scaling factor lists, `None` units and
counts. -/
def disconnectedState : ATIForceTorqueSensor :=
  { connected := false
    F_bias := [0, 0, 0]
    T_bias := [0, 0, 0]
    scaling_factors_F := []
    scaling_factors_T := []
    force_units := none
    torque_units := none
    counts_per_force := none
    counts_per_torque := none }

theorem get_data_state (s : ATIForceTorqueSensor) (raw : Bool) (net : RecvResult) :
    (get_data s raw net).state = s := by
  unfold get_data
  cases hc : s.connected with
  | false => simp
  | true =>
    cases net with
    | timeout => simp
    | data d =>
      simp only [Bool.true_eq_false, if_false]
      cases computeAxes d 4 s.scaling_factors_F s.counts_per_force s.F_bias raw with
      | error e => rfl
      | ok F =>
        cases computeAxes d 10 s.scaling_factors_T s.counts_per_torque s.T_bias raw with
        | error e => rfl
        | ok T => rfl

theorem pySlice_pair (d : List Byte) (a : ℕ) (h : a + 1 < d.length) :
    pySlice d a (a + 2) = [d.getD a 0, d.getD (a + 1) 0] := by
  have ha : a < d.length := by omega
  unfold pySlice
  rw [show a + 2 - a = 2 from by omega,
    List.drop_eq_getElem_cons ha, List.drop_eq_getElem_cons h,
    List.getD_eq_getElem d (0 : Byte) ha, List.getD_eq_getElem d (0 : Byte) h]
  simp only [List.take_succ_cons, List.take_zero]

theorem pySlice_quad (d : List Byte) (a : ℕ) (h : a + 3 < d.length) :
    pySlice d a (a + 4) =
      [d.getD a 0, d.getD (a + 1) 0, d.getD (a + 2) 0, d.getD (a + 3) 0] := by
  have ha : a < d.length := by omega
  have h1 : a + 1 < d.length := by omega
  have h2 : a + 2 < d.length := by omega
  unfold pySlice
  rw [show a + 4 - a = 4 from by omega,
    List.drop_eq_getElem_cons ha, List.drop_eq_getElem_cons h1,
    List.drop_eq_getElem_cons h2, List.drop_eq_getElem_cons h,
    List.getD_eq_getElem d (0 : Byte) ha, List.getD_eq_getElem d (0 : Byte) h1,
    List.getD_eq_getElem d (0 : Byte) h2, List.getD_eq_getElem d (0 : Byte) h]
  simp only [List.take_succ_cons, List.take_zero]

theorem int_from_bytes_pair (x y : Byte) :
    int_from_bytes_signed [x, y] = int16BE x y := by
  have hb : bytesToNat [x, y] = x.val * 256 + y.val := by
    simp [bytesToNat]
  simp only [int_from_bytes_signed, int16BE, hb, List.length_cons, List.length_nil]
  norm_num
  rcases Nat.lt_or_ge (x.val * 256 + y.val) 32768 with h | h
  · rw [if_neg (by omega), if_neg (by omega)]
  · rw [if_pos (by omega), if_pos (by omega)]

theorem int_from_bytes_quad (x y z w : Byte) :
    int_from_bytes_signed [x, y, z, w] = int32BE x y z w := by
  have hb : bytesToNat [x, y, z, w] =
      x.val * 16777216 + y.val * 65536 + z.val * 256 + w.val := by
    show x.val * 256 ^ 3 + (y.val * 256 ^ 2 + (z.val * 256 ^ 1 + (w.val * 256 ^ 0 + 0))) = _
    norm_num
    ring
  simp only [int_from_bytes_signed, int32BE, hb, List.length_cons, List.length_nil]
  norm_num
  rcases Nat.lt_or_ge (x.val * 16777216 + y.val * 65536 + z.val * 256 + w.val)
      2147483648 with h | h
  · rw [if_neg (by omega), if_neg (by omega)]
  · rw [if_pos (by omega), if_pos (by omega)]

theorem biasCorrect_true (v : ℚ) (bias : List ℚ) (i : ℕ) :
    biasCorrect v bias i true = .ok v := rfl

theorem axisStep_true (d : List Byte) (off i : ℕ) (factors : List ℤ)
    (counts : Option ℤ) (bias : List ℚ) :
    axisStep d off i factors counts bias true = convertAxis d off i factors counts := by
  cases h : convertAxis d off i factors counts <;> simp [axisStep, h, biasCorrect]

theorem convertAxis_ok (d : List Byte) (off i : ℕ) (factors : List ℤ) (c sf : ℤ)
    (hf : factors[i]? = some sf) (hc : c ≠ 0) (hlen : off + i * 2 + 1 < d.length) :
    convertAxis d off i factors (some c) =
      .ok (((int16BE (d.getD (off + i * 2) 0) (d.getD (off + i * 2 + 1) 0) * sf : ℤ) : ℚ)
        / (c : ℚ)) := by
  unfold convertAxis
  rw [hf]
  simp only [if_neg hc]
  rw [pySlice_pair d (off + i * 2) hlen, int_from_bytes_pair]

theorem computeAxes_spec (d : List Byte) (off : ℕ) (f0 f1 f2 c : ℤ)
    (b0 b1 b2 : ℚ) (raw : Bool) (hc : c ≠ 0) (hlen : off + 5 < d.length) :
    computeAxes d off [f0, f1, f2] (some c) [b0, b1, b2] raw =
      .ok [specAxis d off [f0, f1, f2] c [b0, b1, b2] raw 0,
           specAxis d off [f0, f1, f2] c [b0, b1, b2] raw 1,
           specAxis d off [f0, f1, f2] c [b0, b1, b2] raw 2] := by
  have e0 := convertAxis_ok d off 0 [f0, f1, f2] c f0 rfl hc (by omega)
  have e1 := convertAxis_ok d off 1 [f0, f1, f2] c f1 rfl hc (by omega)
  have e2 := convertAxis_ok d off 2 [f0, f1, f2] c f2 rfl hc (by omega)
  cases raw <;>
    simp [computeAxes, axisStep, e0, e1, e2, biasCorrect, specAxis]

theorem computeAxes_true_bias (data : List Byte) (off : ℕ) (f : List ℤ)
    (c : Option ℤ) (bias1 bias2 : List ℚ) :
    computeAxes data off f c bias1 true = computeAxes data off f c bias2 true := by
  unfold computeAxes
  simp only [axisStep_true]

theorem computeAxes_true_ok (data : List Byte) (off : ℕ) (f : List ℤ) (c : Option ℤ)
    (b : List ℚ) (F : List ℚ) (h : computeAxes data off f c b true = .ok F) :
    ∃ v0 v1 v2, convertAxis data off 0 f c = .ok v0 ∧
      convertAxis data off 1 f c = .ok v1 ∧
      convertAxis data off 2 f c = .ok v2 ∧ F = [v0, v1, v2] := by
  unfold computeAxes at h
  simp only [axisStep_true] at h
  cases h0 : convertAxis data off 0 f c with
  | error e => simp only [h0] at h; exact Except.noConfusion h
  | ok v0 =>
    simp only [h0] at h
    cases h1 : convertAxis data off 1 f c with
    | error e => simp only [h1] at h; exact Except.noConfusion h
    | ok v1 =>
      simp only [h1] at h
      cases h2 : convertAxis data off 2 f c with
      | error e => simp only [h2] at h; exact Except.noConfusion h
      | ok v2 =>
        simp only [h2] at h
        simp at h
        exact ⟨v0, v1, v2, rfl, rfl, rfl, h.symm⟩

theorem computeAxes_sub_self (data : List Byte) (off : ℕ) (f : List ℤ) (c : Option ℤ)
    (v0 v1 v2 : ℚ)
    (h0 : convertAxis data off 0 f c = .ok v0)
    (h1 : convertAxis data off 1 f c = .ok v1)
    (h2 : convertAxis data off 2 f c = .ok v2) :
    computeAxes data off f c [v0, v1, v2] false = .ok [0, 0, 0] := by
  unfold computeAxes axisStep
  simp only [h0, h1, h2, biasCorrect]
  simp

/-- Claim C1: for every received sample frame carrying the 16 decoded bytes,
`get_data` decodes force raw values as signed 16-bit big-endian integers at
byte offsets 4, 6, 8 (X, Y, Z) and torque raw values at offsets 10, 12, 14,
converts each axis as `raw * scaling_factor / counts_per_unit` with exact
division, and when `raw` is false subtracts the corresponding bias component
after conversion, while when `raw` is true it returns the converted value
unchanged (the `specAxis` formula). -/
theorem C1_get_data_decode (s : ATIForceTorqueSensor) (d : List Byte) (raw : Bool)
    (cf ct : ℤ) (hconn : s.connected = true) (hlen : 16 ≤ d.length)
    (hsF : s.scaling_factors_F.length = 3) (hsT : s.scaling_factors_T.length = 3)
    (hbF : s.F_bias.length = 3) (hbT : s.T_bias.length = 3)
    (hcf : s.counts_per_force = some cf) (hct : s.counts_per_torque = some ct)
    (hcf0 : cf ≠ 0) (hct0 : ct ≠ 0) :
    (get_data s raw (.data d)).val =
      .ok (some
        ([specAxis d 4 s.scaling_factors_F cf s.F_bias raw 0,
          specAxis d 4 s.scaling_factors_F cf s.F_bias raw 1,
          specAxis d 4 s.scaling_factors_F cf s.F_bias raw 2],
         [specAxis d 10 s.scaling_factors_T ct s.T_bias raw 0,
          specAxis d 10 s.scaling_factors_T ct s.T_bias raw 1,
          specAxis d 10 s.scaling_factors_T ct s.T_bias raw 2])) := by
  obtain ⟨f0, f1, f2, hF⟩ := List.length_eq_three.mp hsF
  obtain ⟨g0, g1, g2, hG⟩ := List.length_eq_three.mp hsT
  obtain ⟨p0, p1, p2, hP⟩ := List.length_eq_three.mp hbF
  obtain ⟨q0, q1, q2, hQ⟩ := List.length_eq_three.mp hbT
  have hCF := computeAxes_spec d 4 f0 f1 f2 cf p0 p1 p2 raw hcf0 (by omega)
  have hCT := computeAxes_spec d 10 g0 g1 g2 ct q0 q1 q2 raw hct0 (by omega)
  simp only [get_data, hconn, hF, hG, hP, hQ, hcf, hct]
  rw [hCF, hCT]
  simp

theorem C1_witness :
    calibState.connected = true ∧ 16 ≤ sampleFrame.length ∧
    (get_data calibState false (.data sampleFrame)).val =
      .ok (some
        ([specAxis sampleFrame 4 calibState.scaling_factors_F 1000 calibState.F_bias false 0,
          specAxis sampleFrame 4 calibState.scaling_factors_F 1000 calibState.F_bias false 1,
          specAxis sampleFrame 4 calibState.scaling_factors_F 1000 calibState.F_bias false 2],
         [specAxis sampleFrame 10 calibState.scaling_factors_T 1000 calibState.T_bias false 0,
          specAxis sampleFrame 10 calibState.scaling_factors_T 1000 calibState.T_bias false 1,
          specAxis sampleFrame 10 calibState.scaling_factors_T 1000 calibState.T_bias false 2])) :=
  ⟨rfl, by decide, C1_get_data_decode calibState sampleFrame false 1000 1000 rfl (by decide)
    rfl rfl rfl rfl rfl rfl (by decide) (by decide)⟩

/-- Claim C2: for every calibration response frame of at least 24 bytes,
`get_calibration_info` returns the force unit code from byte 2, the torque
unit code from byte 3, counts per force and per torque as signed 32-bit
big-endian from bytes [4,8) and [8,12), and the force and torque scaling
factors as signed 16-bit big-endian from the byte pairs at offsets 12–22;
in particular the spec's scenario frame decodes to force_unit 1, torque_unit
2, counts 1000 and 1000, force scaling [10,10,10], torque scaling [5,5,5]. -/
theorem C2_calibration_decode (s : ATIForceTorqueSensor) (d : List Byte)
    (hconn : s.connected = true) (hlen : 24 ≤ d.length) :
    (get_calibration_info s (.data d)).val = .ok
      ⟨(d.getD 2 0).val, (d.getD 3 0).val,
       int32BE (d.getD 4 0) (d.getD 5 0) (d.getD 6 0) (d.getD 7 0),
       int32BE (d.getD 8 0) (d.getD 9 0) (d.getD 10 0) (d.getD 11 0),
       [int16BE (d.getD 12 0) (d.getD 13 0), int16BE (d.getD 14 0) (d.getD 15 0),
        int16BE (d.getD 16 0) (d.getD 17 0)],
       [int16BE (d.getD 18 0) (d.getD 19 0), int16BE (d.getD 20 0) (d.getD 21 0),
        int16BE (d.getD 22 0) (d.getD 23 0)]⟩ ∧
    (get_calibration_info calibState (.data calibFrame)).val =
      .ok ⟨1, 2, 1000, 1000, [10, 10, 10], [5, 5, 5]⟩ := by
  refine ⟨?_, by with_unfolding_all rfl⟩
  have hb2 : (2 : ℕ) < d.length := by omega
  have hb3 : (3 : ℕ) < d.length := by omega
  have h2 : d[(2 : ℕ)]? = some (d.getD 2 0) := by
    rw [List.getElem?_eq_getElem hb2, List.getD_eq_getElem d (0 : Byte) hb2]
  have h3 : d[(3 : ℕ)]? = some (d.getD 3 0) := by
    rw [List.getElem?_eq_getElem hb3, List.getD_eq_getElem d (0 : Byte) hb3]
  have q4 : pySlice d 4 8 =
      [d.getD 4 0, d.getD 5 0, d.getD 6 0, d.getD 7 0] := pySlice_quad d 4 (by omega)
  have q8 : pySlice d 8 12 =
      [d.getD 8 0, d.getD 9 0, d.getD 10 0, d.getD 11 0] := pySlice_quad d 8 (by omega)
  have p12 : pySlice d 12 14 = [d.getD 12 0, d.getD 13 0] := pySlice_pair d 12 (by omega)
  have p14 : pySlice d 14 16 = [d.getD 14 0, d.getD 15 0] := pySlice_pair d 14 (by omega)
  have p16 : pySlice d 16 18 = [d.getD 16 0, d.getD 17 0] := pySlice_pair d 16 (by omega)
  have p18 : pySlice d 18 20 = [d.getD 18 0, d.getD 19 0] := pySlice_pair d 18 (by omega)
  have p20 : pySlice d 20 22 = [d.getD 20 0, d.getD 21 0] := pySlice_pair d 20 (by omega)
  have p22 : pySlice d 22 24 = [d.getD 22 0, d.getD 23 0] := pySlice_pair d 22 (by omega)
  have hr : List.range 6 = [0, 1, 2, 3, 4, 5] := rfl
  simp only [get_calibration_info, hconn, HEADER_LENGTH, hr, List.map_cons, List.map_nil]
  norm_num
  rw [h2, h3]
  rw [q4, q8, p12, p14, p16, p18, p20, p22]
  rw [int_from_bytes_quad, int_from_bytes_quad, int_from_bytes_pair, int_from_bytes_pair,
    int_from_bytes_pair, int_from_bytes_pair, int_from_bytes_pair, int_from_bytes_pair]
  norm_num

theorem C2_witness :
    calibState.connected = true ∧ 24 ≤ calibFrame.length ∧
    (get_calibration_info calibState (.data calibFrame)).val =
      .ok ⟨1, 2, 1000, 1000, [10, 10, 10], [5, 5, 5]⟩ :=
  ⟨rfl, by decide, (C2_calibration_decode calibState calibFrame rfl (by decide)).2⟩

/-- Claim C3: a receive timeout during a sample read yields no sample
(`(None, None)`, not an error), while a receive timeout during calibration
negotiation raises the fatal calibration-timeout exception and leaves the
socket closed. -/
theorem C3_timeout_semantics (s : ATIForceTorqueSensor) (raw : Bool)
    (hconn : s.connected = true) :
    (get_data s raw .timeout).val = .ok none ∧
    (get_calibration_info s .timeout).val = .error .calibTimeout ∧
    (get_calibration_info s .timeout).closed = true := by
  refine ⟨?_, ?_, ?_⟩ <;> simp [get_data, get_calibration_info, hconn]

theorem C3_witness :
    calibState.connected = true ∧
    (get_data calibState false .timeout).val = .ok none ∧
    (get_calibration_info calibState .timeout).val = .error .calibTimeout ∧
    (get_calibration_info calibState .timeout).closed = true :=
  ⟨rfl, C3_timeout_semantics calibState false rfl⟩

/-- Claim C4 counterexample: with a zero counts-per-force divisor the decoder
does not guard the division — evaluating `get_data` raises ZeroDivisionError
(the Python division is attempted) and not an InvalidCalibration error. -/
theorem C4_counterexample :
    (get_data { calibState with counts_per_force := some 0 } false (.data sampleFrame)).val
        = .error .zeroDivisionError ∧
    (get_data { calibState with counts_per_force := some 0 } false (.data sampleFrame)).val
        ≠ .error .invalidCalibration := by
  refine ⟨rfl, ?_⟩
  decide

theorem convertAxis_zero_div (d : List Byte) (off i : ℕ) (factors : List ℤ) (sf : ℤ)
    (hf : factors[i]? = some sf) :
    convertAxis d off i factors (some 0) = .error .zeroDivisionError := by
  unfold convertAxis
  simp only [hf]
  simp

theorem computeAxes_zero_first (d : List Byte) (off : ℕ) (factors : List ℤ)
    (counts : Option ℤ) (bias : List ℚ) (raw : Bool) (sf : ℤ)
    (hf : factors[0]? = some sf) (hc : counts = some 0) :
    computeAxes d off factors counts bias raw = .error .zeroDivisionError := by
  have h0 : axisStep d off 0 factors counts bias raw = .error .zeroDivisionError := by
    unfold axisStep
    rw [hc, convertAxis_zero_div d off 0 factors sf hf]
  unfold computeAxes
  rw [h0]

theorem axisStep_ok_exists (d : List Byte) (off i : ℕ) (factors : List ℤ) (c : ℤ)
    (sf : ℤ) (b : ℚ) (bias : List ℚ) (raw : Bool) (hf : factors[i]? = some sf)
    (hb : bias[i]? = some b) (hc : c ≠ 0) :
    ∃ v, axisStep d off i factors (some c) bias raw = .ok v := by
  unfold axisStep convertAxis biasCorrect
  simp only [hf, hb, if_neg hc]
  cases raw
  · exact ⟨_, rfl⟩
  · exact ⟨_, rfl⟩

/-- Claim C4 as amended: when `counts_per_force` or `counts_per_torque` is
zero (with the scaling factor and bias lists populated, as after any
calibration), the sample decode performs the unguarded division, which raises
ZeroDivisionError; there is no guard and no InvalidCalibration error anywhere
in the decoder. -/
theorem C4_amended_zero_divisor (s : ATIForceTorqueSensor) (d : List Byte) (raw : Bool)
    (hconn : s.connected = true)
    (hsF : s.scaling_factors_F.length = 3) (hbF : s.F_bias.length = 3)
    (hsT : s.scaling_factors_T.length = 3)
    (hzero : s.counts_per_force = some 0 ∨
      ((∃ cf, s.counts_per_force = some cf ∧ cf ≠ 0) ∧
        s.counts_per_torque = some 0)) :
    (get_data s raw (.data d)).val = .error .zeroDivisionError := by
  obtain ⟨f0, f1, f2, hF⟩ := List.length_eq_three.mp hsF
  obtain ⟨p0, p1, p2, hP⟩ := List.length_eq_three.mp hbF
  obtain ⟨g0, g1, g2, hG⟩ := List.length_eq_three.mp hsT
  rcases hzero with hcf | ⟨⟨cf, hcf, hcf0⟩, hct⟩
  · have hC : computeAxes d 4 s.scaling_factors_F s.counts_per_force s.F_bias raw
        = .error .zeroDivisionError :=
      computeAxes_zero_first d 4 s.scaling_factors_F s.counts_per_force s.F_bias raw f0
        (by rw [hF]; rfl) hcf
    simp [get_data, hconn, hC]
  · obtain ⟨v0, h0⟩ :=
      axisStep_ok_exists d 4 0 [f0, f1, f2] cf f0 p0 [p0, p1, p2] raw rfl rfl hcf0
    obtain ⟨v1, h1⟩ :=
      axisStep_ok_exists d 4 1 [f0, f1, f2] cf f1 p1 [p0, p1, p2] raw rfl rfl hcf0
    obtain ⟨v2, h2⟩ :=
      axisStep_ok_exists d 4 2 [f0, f1, f2] cf f2 p2 [p0, p1, p2] raw rfl rfl hcf0
    have hCF : computeAxes d 4 [f0, f1, f2] (some cf) [p0, p1, p2] raw
        = .ok [v0, v1, v2] := by
      unfold computeAxes
      rw [h0, h1, h2]
    have hCT : computeAxes d 10 s.scaling_factors_T s.counts_per_torque s.T_bias raw
        = .error .zeroDivisionError :=
      computeAxes_zero_first d 10 s.scaling_factors_T s.counts_per_torque s.T_bias raw g0
        (by rw [hG]; rfl) hct
    simp only [get_data, hconn, hF, hP, hcf]
    rw [hCF]
    simp only [hCT]
    simp

theorem C4_amended_witness :
    (get_data { calibState with counts_per_force := some 0 } false (.data sampleFrame)).val
      = .error .zeroDivisionError ∧
    (get_data { calibState with counts_per_torque := some 0 } false (.data sampleFrame)).val
      = .error .zeroDivisionError :=
  ⟨C4_amended_zero_divisor { calibState with counts_per_force := some 0 } sampleFrame
      false rfl rfl rfl rfl (Or.inl rfl),
    C4_amended_zero_divisor { calibState with counts_per_torque := some 0 } sampleFrame
      false rfl rfl rfl rfl (Or.inr ⟨⟨1000, rfl, by decide⟩, rfl⟩)⟩

/-- Claim C5 counterexample: on the freshly constructed (disconnected) state,
a sample read returns `(None, None)` with no transport I/O but raises no
error at all — in particular not a NotConnected error — and `zero_sensor`
fails with AttributeError, also not a NotConnected error. -/
theorem C5_counterexample :
    (get_data disconnectedState false (.data sampleFrame)).val = .ok none ∧
    (get_data disconnectedState false (.data sampleFrame)).trace = [] ∧
    (zero_sensor disconnectedState (.data sampleFrame)).val = .error .attributeError ∧
    (zero_sensor disconnectedState (.data sampleFrame)).val ≠ .error .notConnected ∧
    (zero_sensor disconnectedState (.data sampleFrame)).trace = [] := by
  refine ⟨rfl, rfl, rfl, ?_, rfl⟩
  decide

/-- Claim C5 as amended: while the connection state is disconnected, a sample
read performs no transport I/O (no send, no receive) and returns
`(None, None)` without raising any error; `zero_sensor` likewise performs no
transport I/O and raises AttributeError (from calling `.copy()` on `None`)
rather than a NotConnected error. -/
theorem C5_amended_disconnected (s : ATIForceTorqueSensor) (raw : Bool) (net : RecvResult)
    (h : s.connected = false) :
    get_data s raw net = { val := .ok none, trace := [], state := s } ∧
    zero_sensor s net = { val := .error .attributeError, trace := [], state := s } := by
  constructor
  · simp [get_data, h]
  · simp [zero_sensor, get_data, h]

theorem C5_amended_witness :
    disconnectedState.connected = false ∧
    get_data disconnectedState false (.data sampleFrame) =
      { val := .ok none, trace := [], state := disconnectedState } ∧
    zero_sensor disconnectedState (.data sampleFrame) =
      { val := .error .attributeError, trace := [], state := disconnectedState } :=
  ⟨rfl, C5_amended_disconnected disconnectedState false (.data sampleFrame) rfl⟩

/-- Claim C6: on success `zero_sensor` replaces both bias vectors wholesale
with the raw-mode converted sample values (not accumulating onto any prior
bias); when the underlying read times out or raises, the state â in
particular the bias â is left unmodified, with no partial update. -/
theorem C6_zero_sensor_bias (s : ATIForceTorqueSensor) (net : RecvResult)
    (F T : List ℚ) (h : (get_data s true net).val = .ok (some (F, T))) :
    (zero_sensor s net).val = .ok () ∧
    (zero_sensor s net).state = { s with F_bias := F, T_bias := T } ∧
    ∀ s2 net2, ((get_data s2 true net2).val = .ok none ∨
        (∃ e, (get_data s2 true net2).val = .error e)) →
      (zero_sensor s2 net2).state = s2 := by
  refine ⟨?_, ?_, ?_⟩
  · simp [zero_sensor, h]
  · simp [zero_sensor, h, get_data_state]
  · rintro s2 net2 (h2 | ⟨e, h2⟩) <;>
      simp [zero_sensor, h2, get_data_state]

theorem C6_witness :
    (get_data calibState true (.data sampleFrame)).val =
      .ok (some ([1, 1, 1], [1/4, 1/4, 1/4])) ∧
    (zero_sensor calibState (.data sampleFrame)).val = .ok () ∧
    (zero_sensor calibState (.data sampleFrame)).state =
      { calibState with F_bias := [1, 1, 1], T_bias := [1/4, 1/4, 1/4] } := by
  have h : (get_data calibState true (.data sampleFrame)).val =
      .ok (some ([1, 1, 1], [1/4, 1/4, 1/4])) := by with_unfolding_all rfl
  obtain ⟨h1, h2, h3⟩ := C6_zero_sensor_bias calibState (.data sampleFrame) _ _ h
  exact ⟨h, h1, h2⟩

/-- Claim C7: if `zero_sensor` succeeds on a received frame, an immediately
following bias-corrected read (`raw = false`) of a frame with the same raw
bytes under the unchanged calibration returns force and torque vectors that
are all exactly zero. -/
theorem C7_zero_then_corrected_read (s : ATIForceTorqueSensor) (d : List Byte)
    (h : (zero_sensor s (.data d)).val = .ok ()) :
    (get_data (zero_sensor s (.data d)).state false (.data d)).val =
      .ok (some ([0, 0, 0], [0, 0, 0])) := by
  have hst := get_data_state s true (.data d)
  cases hv : (get_data s true (.data d)).val with
  | error e => simp [zero_sensor, hv] at h
  | ok o =>
    cases o with
    | none => simp [zero_sensor, hv] at h
    | some FT =>
      obtain ⟨F, T⟩ := FT
      have hstate : (zero_sensor s (.data d)).state =
          { s with F_bias := F, T_bias := T } := by
        simp [zero_sensor, hv, hst]
      cases hc : s.connected with
      | false => simp [get_data, hc] at hv
      | true =>
        have hv2 := hv
        simp only [get_data, hc] at hv2
        cases hF : computeAxes d 4 s.scaling_factors_F s.counts_per_force s.F_bias true with
        | error e => simp [hF] at hv2
        | ok Fv =>
          cases hT : computeAxes d 10 s.scaling_factors_T s.counts_per_torque s.T_bias true with
          | error e => simp [hF, hT] at hv2
          | ok Tv =>
            simp only [hF, hT] at hv2
            simp at hv2
            obtain ⟨hFeq, hTeq⟩ := hv2
            obtain ⟨vF0, vF1, vF2, hF0, hF1, hF2, hFv⟩ :=
              computeAxes_true_ok d 4 s.scaling_factors_F s.counts_per_force s.F_bias Fv hF
            obtain ⟨vT0, vT1, vT2, hT0, hT1, hT2, hTv⟩ :=
              computeAxes_true_ok d 10 s.scaling_factors_T s.counts_per_torque s.T_bias Tv hT
            rw [hstate]
            have hFb : F = [vF0, vF1, vF2] := by rw [← hFeq, hFv]
            have hTb : T = [vT0, vT1, vT2] := by rw [← hTeq, hTv]
            simp only [get_data, hFb, hTb, hc]
            rw [computeAxes_sub_self d 4 s.scaling_factors_F s.counts_per_force
                vF0 vF1 vF2 hF0 hF1 hF2,
              computeAxes_sub_self d 10 s.scaling_factors_T s.counts_per_torque
                vT0 vT1 vT2 hT0 hT1 hT2]
            simp

theorem C7_witness :
    (zero_sensor calibState (.data sampleFrame)).val = .ok () ∧
    (get_data (zero_sensor calibState (.data sampleFrame)).state false
        (.data sampleFrame)).val = .ok (some ([0, 0, 0], [0, 0, 0])) :=
  ⟨by with_unfolding_all rfl,
    C7_zero_then_corrected_read calibState sampleFrame (by with_unfolding_all rfl)⟩

/-- Claim C8: with `raw = true`, two runs of `get_data` on identical received
bytes and identical calibration state but arbitrary, possibly different bias
states return identical force and torque values: raw-mode output does not
depend on the bias state. -/
theorem C8_raw_independent_of_bias (s : ATIForceTorqueSensor)
    (b1 t1 b2 t2 : List ℚ) (net : RecvResult) :
    (get_data { s with F_bias := b1, T_bias := t1 } true net).val =
    (get_data { s with F_bias := b2, T_bias := t2 } true net).val := by
  cases hc : s.connected with
  | false => simp [get_data, hc]
  | true =>
    cases net with
    | timeout => simp [get_data, hc]
    | data d =>
      simp only [get_data, hc]
      rw [computeAxes_true_bias d 4 s.scaling_factors_F s.counts_per_force b1 b2,
        computeAxes_true_bias d 10 s.scaling_factors_T s.counts_per_torque t1 t2]
      cases hx : computeAxes d 4 s.scaling_factors_F s.counts_per_force b2 true with
      | error e => simp [hx]
      | ok Fv =>
        cases hy : computeAxes d 10 s.scaling_factors_T s.counts_per_torque t2 true with
        | error e => simp [hx, hy]
        | ok Tv => simp [hx, hy]

/-- Claim C10: `get_data` leaves every instance field unchanged â the
calibration fields and the bias vectors alike â for every connection state,
raw flag and receive outcome; `zero_sensor` mutates only the bias vectors,
leaving the connection flag and all calibration fields unchanged. -/
theorem C10_frame_conditions (s : ATIForceTorqueSensor) (raw : Bool) (net : RecvResult) :
    (get_data s raw net).state = s ∧
    (zero_sensor s net).state.connected = s.connected ∧
    (zero_sensor s net).state.scaling_factors_F = s.scaling_factors_F ∧
    (zero_sensor s net).state.scaling_factors_T = s.scaling_factors_T ∧
    (zero_sensor s net).state.force_units = s.force_units ∧
    (zero_sensor s net).state.torque_units = s.torque_units ∧
    (zero_sensor s net).state.counts_per_force = s.counts_per_force ∧
    (zero_sensor s net).state.counts_per_torque = s.counts_per_torque := by
  have hst := get_data_state s true net
  refine ⟨get_data_state s raw net, ?_⟩
  cases hv : (get_data s true net).val with
  | error e => simp [zero_sensor, hv, hst]
  | ok o =>
    cases o with
    | none => simp [zero_sensor, hv, hst]
    | some FT =>
      obtain ⟨F, T⟩ := FT
      simp [zero_sensor, hv, hst]

/-- Claim C9 counterexample: a 2-byte calibration frame is not silently
truncated — `get_calibration_info` fails on it, raising IndexError at the
direct unit-code byte access, so it does not proceed to extract fields. -/
theorem C9_counterexample :
    (get_calibration_info calibState (.data [0, 0])).val = .error .indexError := rfl

/-- Claim C9 as amended: for calibration frames of at least 4 bytes — even
ones shorter than the expected 24 — `get_calibration_info` performs no length
validation and proceeds, silently truncating the missing slice bytes; only
frames shorter than 4 bytes fail, and then with an IndexError from the direct
unit-code byte indexing rather than from an explicit length check. -/
theorem C9_amended_truncation (s : ATIForceTorqueSensor) (d : List Byte)
    (hconn : s.connected = true) (hlen : 4 ≤ d.length) :
    ∃ out, (get_calibration_info s (.data d)).val = .ok out := by
  have h2 := List.getElem?_eq_getElem (show 2 < d.length by omega)
  have h3 := List.getElem?_eq_getElem (show 3 < d.length by omega)
  cases hv : (get_calibration_info s (.data d)).val with
  | ok out => exact ⟨out, rfl⟩
  | error e =>
    simp [get_calibration_info, hconn, HEADER_LENGTH, h2, h3] at hv

theorem C9_amended_witness :
    calibState.connected = true ∧ 4 ≤ ([0, 0, 1, 2] : List Byte).length ∧
    ∃ out, (get_calibration_info calibState (.data [0, 0, 1, 2])).val = .ok out :=
  ⟨rfl, by decide, C9_amended_truncation calibState [0, 0, 1, 2] rfl (by decide)⟩

end AtiFt
